import Mathlib

/-!
Verification of the senior-care cost planner's valuation engine.

The development shallowly embeds the two compute functions of the
repository: `compute_results` in streamlit_app.py and `compute` in
calculator_engine.py, together with their helpers
(`interp_in_home_daily`, `per_person_cost`, `shared_unit_discount`,
`mapr_from_categories`, `shared_unit_adjustment`, `money`).

Python values read out of the flat answer map are modelled by the
inductive type `Value` (numbers, strings, booleans, and the absence of
a value).  Monetary amounts are rationals; Python `float` arithmetic is
modelled exactly over the rationals.  Operations that can raise a
Python exception (float()/int() conversions on unparseable data,
attribute access on non-strings) return `Option`, with `none` standing
for a raised exception.
-/

/-- A Python value as stored in the answer map: a number (int or float,
modelled as a rational), a string, a boolean, or None. -/
inductive Value where
  | num (q : ℚ)
  | str (s : String)
  | bool (b : Bool)
  | none
deriving DecidableEq

/-- The flat answer map: keys to optionally-present values.
An absent key is modelled as `Option.none`. -/
def AnswerMap : Type := String → Option Value

/-- Models Python dict.get(k, d): the stored value, or the default when
the key is absent. -/
def aget (i : AnswerMap) (k : String) (d : Value) : Value :=
  (i k).getD d

/-- Python truthiness of a value: 0, the empty string, False and None are
falsy, everything else is truthy. -/
def pyTruthy : Value → Bool
  | .num q => decide (q ≠ 0)
  | .str s => decide (s ≠ "")
  | .bool b => b
  | .none => false

/-- Models Python x or d for the values appearing in the engine:
the value itself when truthy, otherwise the default. -/
def pyOr (v d : Value) : Value :=
  if pyTruthy v then v else d

/-- Digits of a decimal numeral folded into a natural number
(empty list gives 0). -/
def natOfDigits (cs : List Char) : ℕ :=
  cs.foldl (fun n c => 10 * n + (c.toNat - 48)) 0

/-- Splits a character list at the first decimal point, if any. -/
def splitAtDot : List Char → List Char × Option (List Char)
  | [] => ([], Option.none)
  | c :: rest =>
    if c = '.' then ([], some rest)
    else
      let p := splitAtDot rest
      (c :: p.1, p.2)

/-- Models Python float(s) on ordinary decimal literals: an optional
sign, digits, an optional fractional part.  Other inputs Python would
accept (exponents, inf or nan, surrounding whitespace) are outside the
subset this development exercises; every string used in a theorem below
is parsed identically by Python.  Returns `Option.none` when Python
would raise ValueError. -/
def strToFloat (s : String) : Option ℚ :=
  let cs := s.data
  let signBody : ℚ × List Char :=
    match cs with
    | '-' :: r => (-1, r)
    | '+' :: r => (1, r)
    | r => (1, r)
  let body := signBody.2
  match splitAtDot body with
  | (intPart, Option.none) =>
    if intPart ≠ [] ∧ intPart.all Char.isDigit then
      some (signBody.1 * (natOfDigits intPart : ℚ))
    else Option.none
  | (intPart, some fracPart) =>
    if (intPart ≠ [] ∨ fracPart ≠ []) ∧ intPart.all Char.isDigit ∧
        fracPart.all Char.isDigit then
      some (signBody.1 *
        ((natOfDigits intPart : ℚ) +
          (natOfDigits fracPart : ℚ) / (10 : ℚ) ^ fracPart.length))
    else Option.none

/-- Models Python int(s) on integer literals: optional sign and digits.
Returns `Option.none` when Python would raise ValueError. -/
def strToInt (s : String) : Option ℤ :=
  let cs := s.data
  let signBody : ℤ × List Char :=
    match cs with
    | '-' :: r => (-1, r)
    | '+' :: r => (1, r)
    | r => (1, r)
  if signBody.2 ≠ [] ∧ signBody.2.all Char.isDigit then
    some (signBody.1 * (natOfDigits signBody.2 : ℤ))
  else Option.none

/-- Truncation toward zero, as Python int() applied to a float. -/
def pyTruncToInt (q : ℚ) : ℤ :=
  if 0 ≤ q then Rat.floor q else -Rat.floor (-q)

/-- Models Python float(v): numbers pass through, booleans become 0 or 1,
strings are parsed, None raises (returns `Option.none`). -/
def pyFloat : Value → Option ℚ
  | .num q => some q
  | .str s => strToFloat s
  | .bool b => some (if b then 1 else 0)
  | .none => Option.none

/-- Models Python int(v): numbers truncate toward zero, booleans become
0 or 1, strings are parsed as integer literals, None raises. -/
def pyInt : Value → Option ℤ
  | .num q => some (pyTruncToInt q)
  | .str s => strToInt s
  | .bool b => some (if b then 1 else 0)
  | .none => Option.none

/-- Rounding half away from zero to an integer, as Decimal quantize with
ROUND_HALF_UP does on the scaled value. -/
def roundHalfAway (x : ℚ) : ℤ :=
  if 0 ≤ x then Rat.floor (x + 1 / 2) else -Rat.floor (-x + 1 / 2)

/-- The source's money helper: round to cents, half away from zero
(Decimal quantize 0.01 with ROUND_HALF_UP). -/
def money (x : ℚ) : ℚ :=
  (roundHalfAway (x * 100) : ℚ) / 100

/-- Python round(x, 2) with banker's rounding (round half to even),
used by calculator_engine for the years-funded figure. -/
def roundHalfEven2 (x : ℚ) : ℚ :=
  let r := x * 100
  let f := Rat.floor r
  let d := r - (f : ℚ)
  (if d < 1 / 2 then (f : ℚ)
   else if 1 / 2 < d then (f : ℚ) + 1
   else if f % 2 = 0 then (f : ℚ) else (f : ℚ) + 1) / 100

/-- Dictionary lookup with a default, keyed by a string: non-string keys
never match a rate table's string keys, so they hit the default
(Python dict.get never raises). -/
def lookupStrD (f : String → Option ℚ) (v : Value) (d : ℚ) : ℚ :=
  match v with
  | .str s => (f s).getD d
  | _ => d

/-- Rate-table lookup defaulting to zero. -/
def lookupStr (f : String → Option ℚ) (v : Value) : ℚ :=
  lookupStrD f v 0

/-- Whether the needle occurs as a contiguous substring of the haystack,
as the Python expression needle in haystack on strings. -/
def strContainsAux (needle : List Char) : List Char → Bool
  | [] => needle.isEmpty
  | c :: rest => needle.isPrefixOf (c :: rest) || strContainsAux needle rest

/-- String containment test, Python needle in haystack. -/
def strContains (hay needle : String) : Bool :=
  strContainsAux needle.data hay.data

/-- Sum of float conversions of the named answers, default 0 each;
`Option.none` when any conversion raises.  Models the repeated
float(inputs.get(k, 0.0)) summations of compute_results. -/
def sumFloats (i : AnswerMap) : List String → Option ℚ
  | [] => some 0
  | k :: ks => do
    let x ← pyFloat (aget i k (Value.num 0))
    let r ← sumFloats i ks
    pure (x + r)

/-- A raw numeric read, inputs.get(k, 0.0) used directly in arithmetic
(calculator_engine):  numbers and booleans act as numbers, strings and
None raise TypeError when summed (returns `Option.none`). -/
def numGet (i : AnswerMap) (k : String) : Option ℚ :=
  match aget i k (Value.num 0) with
  | .num q => some q
  | .bool b => some (if b then 1 else 0)
  | _ => Option.none

/-- Sum of raw numeric reads, as sum(inputs.get(k, 0.0) for k in ks). -/
def numSum (i : AnswerMap) : List String → Option ℚ
  | [] => some 0
  | k :: ks => do
    let x ← numGet i k
    let r ← numSum i ks
    pure (x + r)

/-- ASCII lowercasing of one character, as Python str.lower on the
ASCII strings the engine compares. -/
def lowerChar (c : Char) : Char :=
  if 65 ≤ c.toNat ∧ c.toNat ≤ 90 then Char.ofNat (c.toNat + 32) else c

/-- ASCII lowercasing of a string. -/
def lowerStr (s : String) : String :=
  String.mk (s.data.map lowerChar)

/-- Models str(inputs.get(k, "No")).lower() in a set of yes-markers, the
long-term-care insurance test of compute_results.  For numbers, Python
str() of an int 1 is the string 1 and matches; other numbers do not. -/
def ltcFlag : Value → Bool
  | .str s => decide (lowerStr s = "yes" ∨ lowerStr s = "true" ∨ lowerStr s = "1")
  | .bool b => b
  | .num q => decide (q = 1)
  | .none => false

/-- Models Python str(v) for the engine's string-keyed rate lookups.
Strings pass through, booleans render as True or False, integers render
in decimal.  A non-integer number is rendered as num/den, which differs
from the Python float rendering; no theorem below depends on that case
(the UI supplies integer hour counts). -/
def pyStr : Value → String
  | .str s => s
  | .bool b => if b then "True" else "False"
  | .num q => if q.den = 1 then toString q.num else toString q.num ++ "/" ++ toString q.den
  | .none => "None"

/-- The care-type label for assisted living. -/
def alString : String := "Assisted Living (or Adult Family Home)"

/-- The care-type label for memory care. -/
def mcString : String := "Memory Care"

/-- The care-type label for in-home care. -/
def inHomeString : String := "In-Home Care (professional staff such as nurses, CNAs, or aides)"

/-- The rate configuration of streamlit_app.compute_results after the
float() conversions of its prelude (lines 107-119): scalar settings and
string-keyed lookup tables, with the in-home curve keyed by integers.
A missing table is the everywhere-absent function. -/
structure Spec where
  memory_care_multiplier : ℚ
  second_person_cost : ℚ
  display_cap_years_funded : ℤ
  ltc_monthly_add : ℚ
  state_multipliers : String → Option ℚ
  room_type : String → Option ℚ
  care_level_adders : String → Option ℚ
  mobility_adders_fac : String → Option ℚ
  mobility_adders_home : String → Option ℚ
  chronic_adders : String → Option ℚ
  curve_keys : Finset ℤ
  curve_val : ℤ → ℚ
  va_categories : String → Option ℚ

/-- The region multiplier:
lookups.get(state_multipliers).get(inputs.get(state, National), 1.0). -/
def stateMult (i : AnswerMap) (sp : Spec) : ℚ :=
  lookupStrD sp.state_multipliers (aget i "state" (Value.str "National")) 1

/-- The lower bracket sample of interp_in_home_daily (line 128): the
greatest curve sample at or below the hour value, defaulting to the
least sample (keys[0] of the ascending key list) when none is. -/
def loOf (keys : Finset ℤ) (h : ℤ) (hne : keys.Nonempty) : ℤ :=
  if hlo : (keys.filter (fun k => k ≤ h)).Nonempty then (keys.filter (fun k => k ≤ h)).max' hlo
  else keys.min' hne

/-- The upper bracket sample of interp_in_home_daily (line 129): the
least curve sample at or above the hour value, defaulting to the
greatest sample (keys[-1]) when none is. -/
def hiOf (keys : Finset ℤ) (h : ℤ) (hne : keys.Nonempty) : ℤ :=
  if hhi : (keys.filter (fun k => h ≤ k)).Nonempty then (keys.filter (fun k => h ≤ k)).min' hhi
  else keys.max' hne

/-- The tail of interp_in_home_daily (lines 130-133): equal brackets
return the sample, otherwise linear interpolation between them. -/
def interpBracket (val : ℤ → ℚ) (h lo hi : ℤ) : ℚ :=
  if lo = hi then val lo
  else val lo + (((h : ℚ) - (lo : ℚ)) / ((hi : ℚ) - (lo : ℚ))) * (val hi - val lo)

/-- The in-home daily-rate interpolation of compute_results
(interp_in_home_daily, lines 122-133): exact hit returns the sample;
otherwise bracket the hour value and interpolate; an empty curve
gives 0. -/
def interp_in_home_daily (keys : Finset ℤ) (val : ℤ → ℚ) (h : ℤ) : ℚ :=
  if hne : keys.Nonempty then
    if h ∈ keys then val h
    else interpBracket val h (loOf keys h hne) (hiOf keys h hne)
  else 0

/-- The hours-per-day value entering the in-home cost formula:
max(0, min(24, int(inputs.get(key, 4) or 4))), per_person_cost line 146.
Returns `Option.none` when int() raises. -/
def effective_hours (i : AnswerMap) (tag : String) : Option ℤ :=
  (pyInt (pyOr (aget i ("hours_per_day_person_" ++ tag) (Value.num 4)) (Value.num 4))).map
    (fun n => max 0 (min 24 n))

/-- The days-per-month value entering the in-home cost formula:
max(0, min(31, int(inputs.get(key, 20) or 20))), per_person_cost line 147. -/
def effective_days (i : AnswerMap) (tag : String) : Option ℤ :=
  (pyInt (pyOr (aget i ("days_per_month_person_" ++ tag) (Value.num 20)) (Value.num 20))).map
    (fun n => max 0 (min 31 n))

/-- The Python condition care_type and care_type.startswith(In-Home Care):
falsy values short-circuit to false, strings test the prefix, and a
truthy non-string raises AttributeError (`Option.none`). -/
def startsInHome : Value → Option Bool
  | .str s => some ("In-Home Care".data.isPrefixOf s.data)
  | .num q => if q = 0 then some false else Option.none
  | .bool b => if b then Option.none else some false
  | .none => some false

/-- Whether a stored care-type value is one of the two facility labels. -/
def isFacilityV (v : Value) : Bool :=
  decide (v = Value.str alString ∨ v = Value.str mcString)

/-- Per-person monthly care cost, streamlit_app.per_person_cost
(lines 136-162).  `Option.none` models a raised exception. -/
def per_person_cost (i : AnswerMap) (sp : Spec) (tag : String) : Option ℚ := do
  let care_type := aget i ("care_type_person_" ++ tag) Value.none
  let level := aget i ("care_level_person_" ++ tag) (Value.str "Medium")
  let mobility := aget i ("mobility_person_" ++ tag) (Value.str "Medium")
  let chronic := aget i ("chronic_person_" ++ tag) (Value.str "None")
  let level_add := lookupStr sp.care_level_adders level
  let chronic_add := lookupStr sp.chronic_adders chronic
  let inHome ← startsInHome care_type
  if inHome then
    let hoursC ← effective_hours i tag
    let daysC ← effective_days i tag
    let daily := interp_in_home_daily sp.curve_keys sp.curve_val hoursC
    let mob_home := lookupStr sp.mobility_adders_home mobility
    let base := (daily + mob_home + chronic_add) * (daysC : ℚ)
    pure (money (base * stateMult i sp))
  else if care_type = Value.str alString ∨ care_type = Value.str mcString then
    let room := aget i ("room_type_person_" ++ tag) Value.none
    let base_room := lookupStr sp.room_type room
    let mob_fac := lookupStr sp.mobility_adders_fac mobility
    let base0 := base_room + level_add + mob_fac + chronic_add
    let base := if care_type = Value.str mcString then base0 * sp.memory_care_multiplier else base0
    pure (money (base * stateMult i sp))
  else
    pure 0

/-- The shared-unit discount of streamlit_app.shared_unit_discount
(lines 164-173): 0 when either care type is falsy; the configured
second-person discount scaled by the region multiplier when both care
types are facility labels; 0 otherwise.  Note the function never reads
a share-one-unit flag. -/
def shared_unit_discount (i : AnswerMap) (sp : Spec) : ℚ :=
  let a_type := aget i "care_type_person_a" Value.none
  let b_type := aget i "care_type_person_b" Value.none
  if ¬(pyTruthy a_type ∧ pyTruthy b_type) then 0
  else if isFacilityV a_type ∧ isFacilityV b_type then
    money (sp.second_person_cost * stateMult i sp)
  else 0

/-- The household annual MAPR selection, streamlit_app
mapr_from_categories (lines 198-209): substring precedence over the two
declared categories.  The two-veterans branch reads the built-in
default table, not the configured va_categories; the other branches
read va_categories with the built-in default as fallback. -/
def mapr_from_categories (vaCats : String → Option ℚ) (cat_a cat_b : String) : ℚ :=
  if strContains cat_a "Two veterans married" || strContains cat_b "Two veterans married" then
    (3740.50 : ℚ) * 12
  else if strContains cat_a "Veteran with spouse" || strContains cat_b "Veteran with spouse" then
    ((vaCats "Veteran with spouse (A&A)").getD 2795.67) * 12
  else if strContains cat_a "Veteran only" || strContains cat_b "Veteran only" then
    ((vaCats "Veteran only (A&A)").getD 2358.33) * 12
  else if strContains cat_a "Surviving spouse + 1 child" || strContains cat_b "Surviving spouse + 1 child" then
    ((vaCats "Surviving spouse + 1 child (A&A)").getD 1808.00) * 12
  else if strContains cat_a "Surviving spouse" || strContains cat_b "Surviving spouse" then
    ((vaCats "Surviving spouse (A&A)").getD 1515.58) * 12
  else 0

/-- The annual VA award formula of compute_results line 238. -/
def va_award_annual_of (mapr countable deductible : ℚ) : ℚ :=
  max 0 (mapr - max 0 (countable - deductible))

/-- The per-person assignment of the VA award (lines 247-270): when any
manual override is present, both persons take their manual amount
(absent manual values default to 0); otherwise the award is split by
category precedence. -/
def assignVA (manual_a manual_b : Option ℚ) (cat_a cat_b : String) (award_m : ℚ) : ℚ × ℚ :=
  if manual_a.isSome || manual_b.isSome then
    (money (manual_a.getD 0), money (manual_b.getD 0))
  else if strContains cat_a "Two veterans married" || strContains cat_b "Two veterans married" then
    (money (award_m / 2), money (award_m / 2))
  else if strContains cat_a "Veteran with spouse" || strContains cat_a "Veteran only" then
    (money award_m, 0)
  else if strContains cat_b "Veteran with spouse" || strContains cat_b "Veteran only" then
    (0, money award_m)
  else if strContains cat_a "Surviving spouse" then
    (money award_m, 0)
  else if strContains cat_b "Surviving spouse" then
    (0, money award_m)
  else (0, 0)

/-- The Streamlit session-state fields read by compute_results besides
the answer map: the two VA category selections (lines 194-195, default
None) and the two manual-override flags (lines 242-243, coerced by
bool()). -/
structure Session where
  va_category_person_a : String
  va_category_person_b : String
  va_override_person_a : Bool
  va_override_person_b : Bool
deriving DecidableEq

/-- The five home-carry fields (line 180). -/
def homeCarryFields : List String :=
  ["mortgage", "taxes", "insurance", "hoa", "utilities"]

/-- The sixteen optional monthly fields (lines 184-189). -/
def optionalFields : List String :=
  ["medicare_premiums", "dental_vision_hearing", "home_modifications_monthly",
   "other_debts_monthly", "pet_care", "entertainment_hobbies", "optional_rx",
   "optional_personal_care", "optional_phone_internet", "optional_life_insurance",
   "optional_transportation", "optional_family_travel", "optional_auto",
   "optional_auto_insurance", "optional_other", "heloc_payment_monthly"]

/-- The nine countable-income fields (lines 214-224), also summed again
for household income (lines 284-292). -/
def incomeFields : List String :=
  ["social_security_person_a", "pension_person_a", "social_security_person_b",
   "pension_person_b", "disability_income", "rental_income", "dividends_interest",
   "wages_part_time", "other_income_monthly"]

/-- The four extra deductible-medical fields (lines 230-233). -/
def medicalFields : List String :=
  ["medicare_premiums", "dental_vision_hearing", "optional_rx", "optional_personal_care"]

/-- The seven asset fields (lines 298-306). -/
def assetFields : List String :=
  ["home_equity", "other_assets", "cash_savings", "ira_total",
   "employer_retirement_total", "brokerage_taxable", "other_assets_grouped"]

/-- The values compute_results reads fallibly from the answer map; a
`Option.none` result of the reader models the raised exception. -/
structure SVals where
  ppc_a : ℚ
  ppc_b : ℚ
  home_raw : ℚ
  optional_raw : ℚ
  income9 : ℚ
  med_extra : ℚ
  manual_a : Option ℚ
  manual_b : Option ℚ
  hecm : ℚ
  heloc : ℚ
  re_inv : ℚ
  assets7 : ℚ
  home_mods : ℚ
deriving DecidableEq

/-- The result record returned by compute_results (lines 314-327). -/
structure ResultRecord where
  care_cost : ℚ
  home_sum : ℚ
  optional_sum : ℚ
  monthly_cost : ℚ
  household_income : ℚ
  monthly_gap : ℚ
  total_assets : ℚ
  years_funded_cap30 : Option ℤ
  home_mods_one_time_total : ℚ
  va_a : ℚ
  va_b : ℚ
  va_household_mapr_monthly : ℚ
deriving DecidableEq

/-- The home-carry sum read (lines 178-182): summed and converted only
when the maintain-home flag is truthy, else 0. -/
def homeRawRead (i : AnswerMap) : Option ℚ :=
  if pyTruthy (aget i "maintain_home_household" Value.none) then
    sumFloats i homeCarryFields
  else some 0

/-- A manual VA amount read (lines 244-245): converted only when the
session override flag is set, else Python None. -/
def manualRead (flag : Bool) (i : AnswerMap) (k : String) : Option (Option ℚ) :=
  if flag then Option.map some (pyFloat (aget i k (Value.num 0)))
  else some Option.none

/-- All fallible reads of compute_results, in source order.  The nine
income fields are read twice in the source (lines 214-224 and 284-292)
with identical results; the common value is recorded once. -/
def computeResultsVals (i : AnswerMap) (s : Session) (sp : Spec) : Option SVals := do
  let ppc_a ← per_person_cost i sp "a"
  let ppc_b ← per_person_cost i sp "b"
  let home_raw ← homeRawRead i
  let optional_raw ← sumFloats i optionalFields
  let income9 ← sumFloats i incomeFields
  let med_extra ← sumFloats i medicalFields
  let manual_a ← manualRead s.va_override_person_a i "va_benefit_person_a"
  let manual_b ← manualRead s.va_override_person_b i "va_benefit_person_b"
  let hecm ← pyFloat (aget i "hecm_draw_monthly" (Value.num 0))
  let heloc ← pyFloat (aget i "heloc_draw_monthly" (Value.num 0))
  let re_inv ← pyFloat (aget i "re_investment_income" (Value.num 0))
  let assets7 ← sumFloats i assetFields
  let home_mods ← pyFloat (aget i "home_mods_one_time_total" (Value.num 0))
  pure ⟨ppc_a, ppc_b, home_raw, optional_raw, income9, med_extra,
    manual_a, manual_b, hecm, heloc, re_inv, assets7, home_mods⟩

/-- The arithmetic of compute_results (lines 175-327) on the values
read from the answer map, mirroring the source line by line. -/
def computeResultsPure (i : AnswerMap) (s : Session) (sp : Spec) (v : SVals) : ResultRecord :=
  let care_cost := v.ppc_a + v.ppc_b - shared_unit_discount i sp
  let home_sum := money v.home_raw
  let optional_sum := money v.optional_raw
  let mapr := mapr_from_categories sp.va_categories s.va_category_person_a s.va_category_person_b
  let countable_income_annual := v.income9 * 12
  let monthly_ded := money (care_cost + v.med_extra)
  let deductible_medical_annual := monthly_ded * 12
  let va_award_annual := va_award_annual_of mapr countable_income_annual deductible_medical_annual
  let va_award_monthly := money (va_award_annual / 12)
  let va := assignVA v.manual_a v.manual_b s.va_category_person_a s.va_category_person_b va_award_monthly
  let ltc_total :=
    (if ltcFlag (aget i "ltc_insurance_person_a" (Value.str "No")) then sp.ltc_monthly_add else 0) +
    (if ltcFlag (aget i "ltc_insurance_person_b" (Value.str "No")) then sp.ltc_monthly_add else 0)
  let household_income :=
    money (v.income9 + va.1 + va.2 + v.hecm + v.heloc + v.re_inv + ltc_total)
  let monthly_cost := money (care_cost + optional_sum + home_sum)
  let total_assets := money v.assets7
  let gap := money (monthly_cost - household_income)
  let years : Option ℤ :=
    if 0 < gap ∧ 0 < total_assets then
      some (min (pyTruncToInt (total_assets / gap / 12)) sp.display_cap_years_funded)
    else Option.none
  { care_cost := money care_cost
    home_sum := home_sum
    optional_sum := optional_sum
    monthly_cost := monthly_cost
    household_income := household_income
    monthly_gap := gap
    total_assets := total_assets
    years_funded_cap30 := years
    home_mods_one_time_total := money v.home_mods
    va_a := va.1
    va_b := va.2
    va_household_mapr_monthly := money (mapr / 12) }

/-- streamlit_app.compute_results: all fallible reads, then the pure
arithmetic; `Option.none` models an uncaught exception. -/
def computeResults (i : AnswerMap) (s : Session) (sp : Spec) : Option ResultRecord :=
  (computeResultsVals i s sp).map (computeResultsPure i s sp)

/-- The rate configuration read by calculator_engine.compute: scalar
settings (indexed access, assumed present and numeric) and string-keyed
lookup tables, with the in-home matrix keyed by strings. -/
structure EngineSpec where
  days_per_month : ℚ
  memory_care_multiplier : ℚ
  second_person_cost : ℚ
  ltc_monthly_add : ℚ
  display_cap_years_funded : ℚ
  care_level_adders : String → Option ℚ
  mobility_fac : String → Option ℚ
  mobility_home : String → Option ℚ
  chronic_adders : String → Option ℚ
  in_home_matrix : String → Option ℚ
  room_type : String → Option ℚ

/-- Per-person cost of calculator_engine.compute (lines 49-69): exact
care-type match for in-home, string-keyed matrix lookup on
str(hours), flat monthly base times days_per_month; facility branch
multiplies only the room base by the memory-care multiplier. -/
def engine_per_person_cost (i : AnswerMap) (sp : EngineSpec) (person : String) : ℚ :=
  let care_type := aget i ("care_type_person_" ++ person) Value.none
  let care_level := aget i ("care_level_person_" ++ person) Value.none
  let mobility := aget i ("mobility_person_" ++ person) Value.none
  let chronic := aget i ("chronic_person_" ++ person) Value.none
  let care_level_add := lookupStr sp.care_level_adders care_level
  let mobility_fac := lookupStr sp.mobility_fac mobility
  let mobility_home := lookupStr sp.mobility_home mobility
  let chronic_add := lookupStr sp.chronic_adders chronic
  if care_type = Value.str inHomeString then
    let hours := pyStr (aget i ("hours_per_day_person_" ++ person) (Value.str "0"))
    let hourly := (sp.in_home_matrix hours).getD 0
    money (hourly * sp.days_per_month + mobility_home + chronic_add)
  else if care_type = Value.str alString ∨ care_type = Value.str mcString then
    let room_type := aget i ("room_type_person_" ++ person) Value.none
    let base_room := lookupStr sp.room_type room_type
    let base := if care_type = Value.str mcString then base_room * sp.memory_care_multiplier else base_room
    money (base + care_level_add + mobility_fac + chronic_add)
  else 0

/-- The shared-unit adjustment of calculator_engine (lines 71-85):
gated on both in-care flags and the share_one_unit flag and both care
types being facility labels; the amount is person B's room base (memory
multiplied for memory care) minus the second-person setting. -/
def shared_unit_adjustment (i : AnswerMap) (sp : EngineSpec) : ℚ :=
  if ¬(pyTruthy (aget i "person_a_in_care" Value.none) ∧
        pyTruthy (aget i "person_b_in_care" Value.none)) then 0
  else if ¬ pyTruthy (aget i "share_one_unit" Value.none) then 0
  else
    let a_type := aget i "care_type_person_a" Value.none
    let b_type := aget i "care_type_person_b" Value.none
    if isFacilityV a_type ∧ isFacilityV b_type then
      let room_b := aget i "room_type_person_b" Value.none
      let room_base := lookupStr sp.room_type room_b
      let room_base2 := if b_type = Value.str mcString then room_base * sp.memory_care_multiplier else room_base
      money (room_base2 - sp.second_person_cost)
    else 0

/-- The nine optional fields of calculator_engine (lines 90-92). -/
def engineOptionalFields : List String :=
  ["optional_rx", "optional_personal_care", "optional_phone_internet",
   "optional_life_insurance", "optional_transportation", "optional_family_travel",
   "optional_auto", "optional_auto_insurance", "optional_other"]

/-- The five income fields of calculator_engine (lines 100-104). -/
def engineIncomeFields : List String :=
  ["social_security_person_a", "social_security_person_b", "pension_person_a",
   "pension_person_b", "re_investment_income"]

/-- The values calculator_engine.compute reads fallibly from the answer
map (raw dictionary reads summed without conversion). -/
structure EngineVals where
  optional_sum : ℚ
  home_sum : ℚ
  va_total : ℚ
  income5 : ℚ
  home_equity : ℚ
  other_assets : ℚ
deriving DecidableEq

/-- The result record of calculator_engine.compute (lines 114-121).
The years entry is None exactly when the unclamped projection is
infinite, which the control flow never produces. -/
structure EngineResult where
  care_cost_total : ℚ
  monthly_cost : ℚ
  household_income : ℚ
  monthly_gap : ℚ
  total_assets : ℚ
  years_funded_cap30 : Option ℚ
deriving DecidableEq

/-- The fallible reads of calculator_engine.compute, in source order. -/
def engineComputeVals (i : AnswerMap) : Option EngineVals := do
  let optional_sum ← numSum i engineOptionalFields
  let home_sum ← numSum i homeCarryFields
  let va_a ← numGet i "va_benefit_person_a"
  let va_b ← numGet i "va_benefit_person_b"
  let income5 ← numSum i engineIncomeFields
  let home_equity ← numGet i "home_equity"
  let other_assets ← numGet i "other_assets"
  pure ⟨optional_sum, home_sum, va_a + va_b, income5, home_equity, other_assets⟩

/-- The arithmetic of calculator_engine.compute (lines 87-121) on the
values read from the answer map. -/
def engineComputePure (i : AnswerMap) (sp : EngineSpec) (v : EngineVals) : EngineResult :=
  let a_selected := if pyTruthy (aget i "person_a_in_care" Value.none) then engine_per_person_cost i sp "a" else 0
  let b_selected := if pyTruthy (aget i "person_b_in_care" Value.none) then engine_per_person_cost i sp "b" else 0
  let care_cost_total := money (a_selected + b_selected - shared_unit_adjustment i sp)
  let house_cost_total := if pyTruthy (aget i "maintain_home_household" Value.none) then v.home_sum else 0
  let ltc_total :=
    (if aget i "ltc_insurance_person_a" Value.none = Value.str "Yes" then sp.ltc_monthly_add else 0) +
    (if aget i "ltc_insurance_person_b" Value.none = Value.str "Yes" then sp.ltc_monthly_add else 0)
  let household_income := v.income5 + v.va_total + ltc_total
  let monthly_cost_full := care_cost_total + house_cost_total + v.optional_sum
  let monthly_gap := max 0 (monthly_cost_full - household_income)
  let total_assets := v.home_equity + v.other_assets
  let display_years :=
    if monthly_gap ≤ 0 then sp.display_cap_years_funded
    else min (total_assets / (monthly_gap * 12)) sp.display_cap_years_funded
  { care_cost_total := money care_cost_total
    monthly_cost := money monthly_cost_full
    household_income := money household_income
    monthly_gap := money monthly_gap
    total_assets := money total_assets
    years_funded_cap30 := some (roundHalfEven2 display_years) }

/-- calculator_engine.compute: fallible reads then pure arithmetic. -/
def engineCompute (i : AnswerMap) (sp : EngineSpec) : Option EngineResult :=
  (engineComputeVals i).map (engineComputePure i sp)

/-- The empty answer map: every key absent. -/
def emptyAnswers : AnswerMap := fun _ => Option.none

/-- A small concrete rate configuration for the streamlit engine, used
by the concrete runs below: a second-person discount of 1200, a
Veteran-only monthly ceiling of 1200, no regional table (multiplier
defaults to 1), an empty in-home curve. -/
def exSpec : Spec where
  memory_care_multiplier := 1.25
  second_person_cost := 1200
  display_cap_years_funded := 30
  ltc_monthly_add := 1800
  state_multipliers := fun _ => Option.none
  room_type := fun k => if k = "Studio" then some 3500 else Option.none
  care_level_adders := fun _ => Option.none
  mobility_adders_fac := fun _ => Option.none
  mobility_adders_home := fun _ => Option.none
  chronic_adders := fun _ => Option.none
  curve_keys := ∅
  curve_val := fun _ => 0
  va_categories := fun k => if k = "Veteran only (A&A)" then some 1200 else Option.none

/-- A small concrete rate configuration for calculator_engine. -/
def exEngineSpec : EngineSpec where
  days_per_month := 20
  memory_care_multiplier := 1.25
  second_person_cost := 1200
  ltc_monthly_add := 1800
  display_cap_years_funded := 30
  care_level_adders := fun _ => Option.none
  mobility_fac := fun _ => Option.none
  mobility_home := fun _ => Option.none
  chronic_adders := fun _ => Option.none
  in_home_matrix := fun _ => Option.none
  room_type := fun _ => Option.none

/-- Session with no VA category and no overrides. -/
def sessNone : Session where
  va_category_person_a := "None"
  va_category_person_b := "None"
  va_override_person_a := false
  va_override_person_b := false

/-- A second session holding the same four values as sessNone. -/
def sessNone2 : Session where
  va_category_person_a := "None"
  va_category_person_b := "None"
  va_override_person_a := false
  va_override_person_b := false

/-- Session: person A declares Veteran only, no overrides. -/
def sessVetA : Session where
  va_category_person_a := "Veteran only (A&A)"
  va_category_person_b := "None"
  va_override_person_a := false
  va_override_person_b := false

/-- Session: person A declares Veteran only, manual override flagged for
person B only. -/
def sessVetAOverB : Session where
  va_category_person_a := "Veteran only (A&A)"
  va_category_person_b := "None"
  va_override_person_a := false
  va_override_person_b := true

/-- Answers: a manual VA amount of 500 entered for person B, nothing
else. -/
def exInputsC2 : AnswerMap := fun k =>
  if k = "va_benefit_person_b" then some (Value.num 500) else Option.none

/-- Answers: both persons in assisted living; the share_one_unit key is
absent. -/
def exInputsC3 : AnswerMap := fun k =>
  if k = "care_type_person_a" then some (Value.str alString)
  else if k = "care_type_person_b" then some (Value.str alString)
  else Option.none

/-- Answers: both persons flagged in care, sharing one unit, both in
assisted living, B in a Studio room. -/
def exInputsC3b : AnswerMap := fun k =>
  if k = "care_type_person_a" then some (Value.str alString)
  else if k = "care_type_person_b" then some (Value.str alString)
  else if k = "person_a_in_care" then some (Value.bool true)
  else if k = "person_b_in_care" then some (Value.bool true)
  else if k = "share_one_unit" then some (Value.bool true)
  else if k = "room_type_person_b" then some (Value.str "Studio")
  else Option.none

/-- Answers: an unparseable currency string for a medical field. -/
def exInputsC6 : AnswerMap := fun k =>
  if k = "medicare_premiums" then some (Value.str "abc") else Option.none

/-- Answers: monthly social security of 5000, no care costs. -/
def exInputsC9 : AnswerMap := fun k =>
  if k = "social_security_person_a" then some (Value.num 5000) else Option.none

/-- Answers: 30 hours per day entered for person A. -/
def exInputsC10 : AnswerMap := fun k =>
  if k = "hours_per_day_person_a" then some (Value.num 30) else Option.none

/-- A configured VA table that overrides the two-veterans household
ceiling (4000 monthly) and the veteran-only ceiling (1000 monthly). -/
def exVaCatsC8 : String → Option ℚ := fun k =>
  if k = "Two veterans married, both A&A (household ceiling)" then some 4000
  else if k = "Veteran only (A&A)" then some 1000
  else Option.none

/-- A concrete in-home rate curve support: samples at 0, 8 and 24
hours. -/
def exCurveKeys : Finset ℤ := {0, 8, 24}

/-- Concrete non-decreasing daily rates for the samples. -/
def exCurveVal : ℤ → ℚ := fun k =>
  if k = 0 then 100 else if k = 8 then 200 else 300

/-- The result record of compute_results on the empty answer map with
sessNone and exSpec. -/
def exRR : ResultRecord where
  care_cost := 0
  home_sum := 0
  optional_sum := 0
  monthly_cost := 0
  household_income := 0
  monthly_gap := 0
  total_assets := 0
  years_funded_cap30 := Option.none
  home_mods_one_time_total := 0
  va_a := 0
  va_b := 0
  va_household_mapr_monthly := 0

/-- The result record of calculator_engine.compute on the empty answer
map with exEngineSpec. -/
def exER : EngineResult where
  care_cost_total := 0
  monthly_cost := 0
  household_income := 0
  monthly_gap := 0
  total_assets := 0
  years_funded_cap30 := some 30

/-- A value is numeric or absent: the benign shape under which every
float()/int() read of compute_results succeeds. -/
def NumericOrAbsent (ov : Option Value) : Prop :=
  ov = Option.none ∨ ∃ q, ov = some (Value.num q)

/-- A value is a string or absent: the benign shape for a care-type
read (a truthy non-string care type raises AttributeError). -/
def StrOrAbsent (ov : Option Value) : Prop :=
  ov = Option.none ∨ ∃ s, ov = some (Value.str s)

theorem ratFloor_eq_floor (q : ℚ) : Rat.floor q = ⌊q⌋ := by
  rw [Rat.floor_def', Rat.floor_def]

theorem money_nonneg {x : ℚ} (h : 0 ≤ x) : 0 ≤ money x := by
  unfold money roundHalfAway
  rw [if_pos (by positivity), ratFloor_eq_floor]
  have h2 : (0 : ℤ) ≤ ⌊x * 100 + 1 / 2⌋ := Int.floor_nonneg.mpr (by positivity)
  positivity

theorem money_zero : money 0 = 0 := by
  norm_num [money, roundHalfAway, ratFloor_eq_floor]

/-- C1.  The annual VA award computed at line 238 of compute_results is
exactly max(0, ceiling minus max(0, countable income minus deductible
medical)); when deductible medical covers countable income the award is
the full (non-negative) household ceiling; the award is never negative
and never exceeds the ceiling. -/
theorem C1_va_award_clamp (mapr ci dm : ℚ) (hm : 0 ≤ mapr) :
    va_award_annual_of mapr ci dm = max 0 (mapr - max 0 (ci - dm)) ∧
    (ci ≤ dm → va_award_annual_of mapr ci dm = mapr) ∧
    0 ≤ va_award_annual_of mapr ci dm ∧
    va_award_annual_of mapr ci dm ≤ mapr := by
  unfold va_award_annual_of
  refine ⟨rfl, ?_, le_max_left _ _, ?_⟩
  · intro hcd
    rw [max_eq_left (by linarith : ci - dm ≤ 0), sub_zero, max_eq_right hm]
  · have h1 : 0 ≤ max 0 (ci - dm) := le_max_left _ _
    exact max_le hm (by linarith)

/-- Witness for C1 at the concrete point (100, 5, 10). -/
theorem C1_witness :
    va_award_annual_of 100 5 10 = max 0 ((100 : ℚ) - max 0 (5 - 10)) ∧
    ((5 : ℚ) ≤ 10 → va_award_annual_of 100 5 10 = 100) ∧
    0 ≤ va_award_annual_of 100 5 10 ∧
    va_award_annual_of 100 5 10 ≤ 100 :=
  C1_va_award_clamp 100 5 10 (by norm_num)

set_option maxHeartbeats 2000000 in
/-- C2 counterexample.  With sessVetAOverB a manual override is flagged
for person B only, yet person A receives 0, while the identical answers
with no override (sessVetA) give person A a computed award of 1200: the
override for one person wipes out the other person's computed award
rather than leaving it unchanged. -/
theorem C2_counterexample :
    (computeResults exInputsC2 sessVetAOverB exSpec).map ResultRecord.va_a = some 0 ∧
    (computeResults exInputsC2 sessVetAOverB exSpec).map ResultRecord.va_b = some 500 ∧
    (computeResults exInputsC2 sessVetA exSpec).map ResultRecord.va_a = some 1200 ∧
    sessVetAOverB.va_override_person_a = false ∧
    sessVetAOverB.va_override_person_b = true := by
  refine ⟨?_, ?_, ?_, rfl, rfl⟩ <;>
  · simp +decide only [computeResults, computeResultsVals,
      per_person_cost, effective_hours, effective_days, startsInHome, aget, pyTruthy,
      pyOr, pyFloat, pyInt, strToFloat, strToInt, splitAtDot, natOfDigits, sumFloats,
      homeRawRead, manualRead,
      homeCarryFields, optionalFields, incomeFields, medicalFields, assetFields,
      exSpec, sessVetAOverB, sessVetA, exInputsC2,
      Option.some_bind, Option.none_bind, Option.map_some', Option.map_none',
      Option.getD, Option.isSome]
    unfold computeResultsPure
    simp +decide only [assignVA, mapr_from_categories, strContains,
      strContainsAux, va_award_annual_of, shared_unit_discount, isFacilityV, stateMult,
      lookupStr, lookupStrD, ltcFlag, lowerStr, lowerChar, aget, pyTruthy,
      exSpec, exInputsC2, Option.getD, Option.isSome]
    norm_num [money, roundHalfAway, ratFloor_eq_floor, pyTruncToInt, max_def, min_def]

/-- C2 amended.  When any manual override is flagged the engine replaces
both persons' awards with the manual amounts: the flagged person gets
the entered value, the unflagged person gets 0 instead of the computed
award (assignVA, lines 247-251). -/
theorem C2_override_both (q award : ℚ) (ca cb : String) :
    assignVA Option.none (some q) ca cb award = (0, money q) ∧
    assignVA (some q) Option.none ca cb award = (money q, 0) ∧
    ∀ qa qb : ℚ, assignVA (some qa) (some qb) ca cb award = (money qa, money qb) := by
  simp [assignVA, money_zero]

set_option maxHeartbeats 2000000 in
/-- C7 counterexample.  Identical answer map and rate configuration,
two session states differing in one VA category field: the results
differ, so the result is not a function of the answer map and rate
configuration alone. -/
theorem C7_counterexample :
    computeResults exInputsC2 sessNone exSpec ≠ computeResults exInputsC2 sessVetA exSpec := by
  have h1 : (computeResults exInputsC2 sessNone exSpec).map ResultRecord.va_a = some 0 := by
    simp +decide only [computeResults, computeResultsVals,
      per_person_cost, effective_hours, effective_days, startsInHome, aget, pyTruthy,
      pyOr, pyFloat, pyInt, strToFloat, strToInt, splitAtDot, natOfDigits, sumFloats,
      homeRawRead, manualRead,
      homeCarryFields, optionalFields, incomeFields, medicalFields, assetFields,
      exSpec, sessNone, exInputsC2,
      Option.some_bind, Option.none_bind, Option.map_some', Option.map_none',
      Option.getD, Option.isSome]
  have h2 : (computeResults exInputsC2 sessVetA exSpec).map ResultRecord.va_a = some 1200 := by
    simp +decide only [computeResults, computeResultsVals,
      per_person_cost, effective_hours, effective_days, startsInHome, aget, pyTruthy,
      pyOr, pyFloat, pyInt, strToFloat, strToInt, splitAtDot, natOfDigits, sumFloats,
      homeRawRead, manualRead,
      homeCarryFields, optionalFields, incomeFields, medicalFields, assetFields,
      exSpec, sessVetA, exInputsC2,
      Option.some_bind, Option.none_bind, Option.map_some', Option.map_none',
      Option.getD, Option.isSome]
    unfold computeResultsPure
    simp +decide only [assignVA, mapr_from_categories, strContains,
      strContainsAux, va_award_annual_of, shared_unit_discount, isFacilityV, stateMult,
      lookupStr, lookupStrD, ltcFlag, lowerStr, lowerChar, aget, pyTruthy,
      exSpec, exInputsC2, Option.getD, Option.isSome]
    norm_num [money, roundHalfAway, ratFloor_eq_floor, pyTruncToInt, max_def, min_def]
  intro h
  rw [h] at h1
  have h3 := h1.symm.trans h2
  exact absurd (Option.some.inj h3) (by norm_num)

/-- C7 amended.  The result is a pure function of the answer map, the
rate configuration, and the four VA session-state fields: two sessions
agreeing on those fields give identical results. -/
theorem C7_session_function (i : AnswerMap) (sp : Spec) (s1 s2 : Session)
    (h1 : s1.va_category_person_a = s2.va_category_person_a)
    (h2 : s1.va_category_person_b = s2.va_category_person_b)
    (h3 : s1.va_override_person_a = s2.va_override_person_a)
    (h4 : s1.va_override_person_b = s2.va_override_person_b) :
    computeResults i s1 sp = computeResults i s2 sp := by
  obtain ⟨a1, b1, c1, d1⟩ := s1
  obtain ⟨a2, b2, c2, d2⟩ := s2
  cases h1
  cases h2
  cases h3
  cases h4
  rfl

/-- Witness for C7 at two concrete sessions holding the same fields. -/
theorem C7_witness :
    computeResults emptyAnswers sessNone exSpec = computeResults emptyAnswers sessNone2 exSpec :=
  C7_session_function emptyAnswers exSpec sessNone sessNone2 rfl rfl rfl rfl

set_option maxHeartbeats 2000000 in
/-- C9 counterexample.  With household income 5000 and zero cost, the
monthly gap stored в the result record of compute_results is -5000:
line 308 applies no floor at zero. -/
theorem C9_counterexample :
    (computeResults exInputsC9 sessNone exSpec).map ResultRecord.monthly_gap = some (-5000) ∧
    ((-5000 : ℚ) < 0) := by
  refine ⟨?_, by norm_num⟩
  simp +decide only [computeResults, computeResultsVals,
    per_person_cost, effective_hours, effective_days, startsInHome, aget, pyTruthy,
    pyOr, pyFloat, pyInt, strToFloat, strToInt, splitAtDot, natOfDigits, sumFloats,
      homeRawRead, manualRead,
    homeCarryFields, optionalFields, incomeFields, medicalFields, assetFields,
    exSpec, sessNone, exInputsC9,
    Option.some_bind, Option.none_bind, Option.map_some', Option.map_none',
    Option.getD, Option.isSome]
  unfold computeResultsPure
  simp +decide only [assignVA, mapr_from_categories, strContains,
    strContainsAux, va_award_annual_of, shared_unit_discount, isFacilityV, stateMult,
    lookupStr, lookupStrD, ltcFlag, lowerStr, lowerChar, aget, pyTruthy,
    exSpec, exInputsC9, Option.getD, Option.isSome]
  norm_num [money, roundHalfAway, ratFloor_eq_floor, pyTruncToInt, max_def, min_def]

set_option maxHeartbeats 1000000 in
/-- C6 counterexample.  An unparseable currency string for a numeric
field makes compute_results raise (modelled as Option.none) instead of
degrading to zero. -/
theorem C6_counterexample :
    computeResults exInputsC6 sessNone exSpec = Option.none ∧
    exInputsC6 "medicare_premiums" = some (Value.str "abc") := by
  refine ⟨?_, rfl⟩
  simp +decide only [computeResults, computeResultsVals,
    per_person_cost, effective_hours, effective_days, startsInHome, aget, pyTruthy,
    pyOr, pyFloat, pyInt, strToFloat, strToInt, splitAtDot, natOfDigits, sumFloats,
      homeRawRead, manualRead,
    homeCarryFields, optionalFields, incomeFields, medicalFields, assetFields,
    exSpec, sessNone, exInputsC6,
    Option.some_bind, Option.none_bind, Option.map_some', Option.map_none',
    Option.getD, Option.isSome]

theorem pyFloat_benign {ov : Option Value} (h : NumericOrAbsent ov) (d : ℚ) :
    ∃ q, pyFloat (ov.getD (Value.num d)) = some q := by
  rcases h with h | ⟨q, h⟩ <;> subst h
  · exact ⟨d, rfl⟩
  · exact ⟨q, rfl⟩

theorem sumFloats_benign (i : AnswerMap) (ks : List String)
    (h : ∀ k ∈ ks, NumericOrAbsent (i k)) : ∃ q, sumFloats i ks = some q := by
  induction ks with
  | nil => exact ⟨0, rfl⟩
  | cons k ks ih =>
    obtain ⟨x, hx⟩ := pyFloat_benign (h k (by simp)) 0
    obtain ⟨r, hr⟩ := ih (fun j hj => h j (by simp [hj]))
    exact ⟨x + r, by simp [sumFloats, aget, hx, hr]⟩

theorem effective_hours_benign (i : AnswerMap) (tag : String)
    (h : NumericOrAbsent (i ("hours_per_day_person_" ++ tag))) :
    ∃ n, effective_hours i tag = some n := by
  rcases h with h | ⟨q, h⟩
  · exact ⟨_, by simp [effective_hours, aget, h, pyOr, pyTruthy, pyInt]; rfl⟩
  · by_cases hq : q = 0
    · subst hq
      exact ⟨_, by simp [effective_hours, aget, h, pyOr, pyTruthy, pyInt]; rfl⟩
    · exact ⟨_, by simp [effective_hours, aget, h, pyOr, pyTruthy, pyInt, hq]; rfl⟩

theorem effective_days_benign (i : AnswerMap) (tag : String)
    (h : NumericOrAbsent (i ("days_per_month_person_" ++ tag))) :
    ∃ n, effective_days i tag = some n := by
  rcases h with h | ⟨q, h⟩
  · exact ⟨_, by simp [effective_days, aget, h, pyOr, pyTruthy, pyInt]; rfl⟩
  · by_cases hq : q = 0
    · subst hq
      exact ⟨_, by simp [effective_days, aget, h, pyOr, pyTruthy, pyInt]; rfl⟩
    · exact ⟨_, by simp [effective_days, aget, h, pyOr, pyTruthy, pyInt, hq]; rfl⟩

theorem per_person_cost_benign (i : AnswerMap) (sp : Spec) (tag : String)
    (hct : StrOrAbsent (i ("care_type_person_" ++ tag)))
    (hh : NumericOrAbsent (i ("hours_per_day_person_" ++ tag)))
    (hd : NumericOrAbsent (i ("days_per_month_person_" ++ tag))) :
    ∃ q, per_person_cost i sp tag = some q := by
  obtain ⟨n, hn⟩ := effective_hours_benign i tag hh
  obtain ⟨m, hm⟩ := effective_days_benign i tag hd
  rcases hct with hc | ⟨s, hc⟩
  · exact ⟨0, by simp [per_person_cost, aget, hc, startsInHome]⟩
  · by_cases hpre : ("In-Home Care".data.isPrefixOf s.data) = true
    · exact ⟨_, by simp [per_person_cost, aget, hc, startsInHome, hpre, hn, hm]; rfl⟩
    · by_cases hfac : s = alString ∨ s = mcString
      · rcases hfac with rfl | rfl <;>
          exact ⟨_, by simp +decide [per_person_cost, aget, hc, startsInHome,
            alString, mcString]; try rfl⟩
      · exact ⟨0, by simp [per_person_cost, aget, hc, startsInHome, hpre, hfac]⟩

/-- C6 amended.  compute_results cannot raise on an answer map whose
values are numeric or absent everywhere and whose care types are
strings or absent: every lookup then defaults (0 for adders, 1 for the
region multiplier) and every conversion succeeds.  With unparseable
strings it does raise (see the counterexample), so the success is
conditional on parseability, not unconditional. -/
theorem C6_total (i : AnswerMap) (s : Session) (sp : Spec)
    (hnum : ∀ k, k ≠ "care_type_person_a" → k ≠ "care_type_person_b" → NumericOrAbsent (i k))
    (hca : StrOrAbsent (i "care_type_person_a"))
    (hcb : StrOrAbsent (i "care_type_person_b")) :
    ∃ r, computeResults i s sp = some r := by
  obtain ⟨qa, hqa⟩ := per_person_cost_benign i sp "a" hca
    (hnum _ (by decide) (by decide)) (hnum _ (by decide) (by decide))
  obtain ⟨qb, hqb⟩ := per_person_cost_benign i sp "b" hcb
    (hnum _ (by decide) (by decide)) (hnum _ (by decide) (by decide))
  obtain ⟨qh, hqh⟩ : ∃ q, homeRawRead i = some q := by
    unfold homeRawRead
    split
    · exact sumFloats_benign i homeCarryFields
        (fun k hk => hnum k (fun he => absurd (he ▸ hk) (by decide))
          (fun he => absurd (he ▸ hk) (by decide)))
    · exact ⟨0, rfl⟩
  obtain ⟨qo, hqo⟩ := sumFloats_benign i optionalFields
    (fun k hk => hnum k (fun he => absurd (he ▸ hk) (by decide))
      (fun he => absurd (he ▸ hk) (by decide)))
  obtain ⟨qi, hqi⟩ := sumFloats_benign i incomeFields
    (fun k hk => hnum k (fun he => absurd (he ▸ hk) (by decide))
      (fun he => absurd (he ▸ hk) (by decide)))
  obtain ⟨qm, hqm⟩ := sumFloats_benign i medicalFields
    (fun k hk => hnum k (fun he => absurd (he ▸ hk) (by decide))
      (fun he => absurd (he ▸ hk) (by decide)))
  obtain ⟨qs, hqs⟩ := sumFloats_benign i assetFields
    (fun k hk => hnum k (fun he => absurd (he ▸ hk) (by decide))
      (fun he => absurd (he ▸ hk) (by decide)))
  obtain ⟨ma, hma⟩ : ∃ mo, manualRead s.va_override_person_a i "va_benefit_person_a" = some mo := by
    unfold manualRead
    split
    · obtain ⟨q, hq⟩ := pyFloat_benign (hnum "va_benefit_person_a" (by decide) (by decide)) 0
      exact ⟨some q, by simp [aget, hq]⟩
    · exact ⟨Option.none, rfl⟩
  obtain ⟨mb, hmb⟩ : ∃ mo, manualRead s.va_override_person_b i "va_benefit_person_b" = some mo := by
    unfold manualRead
    split
    · obtain ⟨q, hq⟩ := pyFloat_benign (hnum "va_benefit_person_b" (by decide) (by decide)) 0
      exact ⟨some q, by simp [aget, hq]⟩
    · exact ⟨Option.none, rfl⟩
  obtain ⟨q1, hq1⟩ := pyFloat_benign (hnum "hecm_draw_monthly" (by decide) (by decide)) 0
  obtain ⟨q2, hq2⟩ := pyFloat_benign (hnum "heloc_draw_monthly" (by decide) (by decide)) 0
  obtain ⟨q3, hq3⟩ := pyFloat_benign (hnum "re_investment_income" (by decide) (by decide)) 0
  obtain ⟨q4, hq4⟩ := pyFloat_benign (hnum "home_mods_one_time_total" (by decide) (by decide)) 0
  have hvals : computeResultsVals i s sp =
      some ⟨qa, qb, qh, qo, qi, qm, ma, mb, q1, q2, q3, qs, q4⟩ := by
    simp only [computeResultsVals, hqa, hqb, hqh, hqo, hqi, hqm, hma, hmb,
      Option.bind_eq_bind, Option.some_bind]
    simp only [aget, hq1, hq2, hq3, hq4, hqs, Option.bind_eq_bind, Option.some_bind]
    rfl
  refine ⟨computeResultsPure i s sp ⟨qa, qb, qh, qo, qi, qm, ma, mb, q1, q2, q3, qs, q4⟩, ?_⟩
  unfold computeResults
  rw [hvals, Option.map_some']

/-- Witness for C6: the empty answer map is benign and the engine
returns a record on it. -/
theorem C6_witness : ∃ r, computeResults emptyAnswers sessNone exSpec = some r :=
  C6_total emptyAnswers sessNone exSpec (fun _ _ _ => Or.inl rfl) (Or.inl rfl) (Or.inl rfl)

theorem pyTruthy_of_isFacilityV {v : Value} (h : isFacilityV v = true) :
    pyTruthy v = true := by
  rcases of_decide_eq_true h with rfl | rfl <;> decide

/-- C3 counterexample.  Both persons in assisted living, the
share-one-unit key entirely absent: the app's shared_unit_discount
still returns the full 1200 discount, so the share flag is not part of
the gating. -/
theorem C3_counterexample :
    exInputsC3 "share_one_unit" = Option.none ∧
    shared_unit_discount exInputsC3 exSpec = 1200 ∧ ((1200 : ℚ) ≠ 0) := by
  refine ⟨rfl, ?_, by norm_num⟩
  simp +decide only [shared_unit_discount, isFacilityV, aget, pyTruthy, stateMult,
    lookupStrD, exInputsC3, exSpec, alString, Option.getD]
  norm_num [money, roundHalfAway, ratFloor_eq_floor]

/-- C3 amended.  The app's shared_unit_discount equals the configured
second-person discount times the region multiplier exactly when both
care types are facility labels, with no share flag consulted;
calculator_engine's shared_unit_adjustment is additionally gated on the
in-care and share_one_unit flags but subtracts the discount from person
B's (memory-adjusted) room base rather than returning the discount. -/
theorem C3_discount_gating (i : AnswerMap) (sp : Spec) (sp2 : EngineSpec) :
    (shared_unit_discount i sp =
      if isFacilityV (aget i "care_type_person_a" Value.none) ∧
          isFacilityV (aget i "care_type_person_b" Value.none) then
        money (sp.second_person_cost * stateMult i sp)
      else 0) ∧
    (pyTruthy (aget i "share_one_unit" Value.none) = false →
      shared_unit_adjustment i sp2 = 0) ∧
    (pyTruthy (aget i "person_a_in_care" Value.none) = true →
      pyTruthy (aget i "person_b_in_care" Value.none) = true →
      pyTruthy (aget i "share_one_unit" Value.none) = true →
      isFacilityV (aget i "care_type_person_a" Value.none) = true →
      isFacilityV (aget i "care_type_person_b" Value.none) = true →
      shared_unit_adjustment i sp2 =
        money ((if aget i "care_type_person_b" Value.none = Value.str mcString then
            lookupStr sp2.room_type (aget i "room_type_person_b" Value.none) *
              sp2.memory_care_multiplier
          else lookupStr sp2.room_type (aget i "room_type_person_b" Value.none)) -
          sp2.second_person_cost)) := by
  refine ⟨?_, ?_, ?_⟩
  · simp only [shared_unit_discount]
    by_cases hfac : isFacilityV (aget i "care_type_person_a" Value.none) = true ∧
        isFacilityV (aget i "care_type_person_b" Value.none) = true
    · rw [if_neg (not_not_intro ⟨pyTruthy_of_isFacilityV hfac.1,
        pyTruthy_of_isFacilityV hfac.2⟩)]
    · by_cases htr : pyTruthy (aget i "care_type_person_a" Value.none) = true ∧
          pyTruthy (aget i "care_type_person_b" Value.none) = true
      · rw [if_neg (not_not_intro htr), if_neg hfac]
      · rw [if_pos htr, if_neg hfac]
  · intro h
    unfold shared_unit_adjustment
    split_ifs <;> simp_all
  · intro h1 h2 h3 h4 h5
    unfold shared_unit_adjustment
    rw [if_neg (by simp [h1, h2]), if_neg (by simp [h3]), if_pos ⟨h4, h5⟩]

/-- Witness for C3 at concrete inputs: the gate-off case gives 0 and
the fully-gated case gives the room-minus-discount amount. -/
theorem C3_witness :
    shared_unit_adjustment exInputsC3 exEngineSpec = 0 ∧
    shared_unit_adjustment exInputsC3b exEngineSpec =
      money ((if aget exInputsC3b "care_type_person_b" Value.none = Value.str mcString then
          lookupStr exEngineSpec.room_type (aget exInputsC3b "room_type_person_b" Value.none) *
            exEngineSpec.memory_care_multiplier
        else lookupStr exEngineSpec.room_type (aget exInputsC3b "room_type_person_b" Value.none)) -
        exEngineSpec.second_person_cost) :=
  ⟨(C3_discount_gating exInputsC3 exSpec exEngineSpec).2.1 (by decide),
   (C3_discount_gating exInputsC3b exSpec exEngineSpec).2.2
     (by decide) (by decide) (by decide) (by decide) (by decide)⟩

/-- C8.  The two-veterans precedence branch reads the built-in default
table, ignoring the configured vaCategoryCeilings (4000 configured,
44886 = 3740.50 x 12 returned), contradicting the source's own comment
that lookups.va_categories overrides the built-ins; both persons
declaring Veteran only yield the single configured Veteran-only
ceiling, not a doubled one. -/
theorem C8_ceiling_ignores_config :
    mapr_from_categories exVaCatsC8 "Two veterans married, both A&A (household ceiling)" "None" = 44886 ∧
    exVaCatsC8 "Two veterans married, both A&A (household ceiling)" = some 4000 ∧
    ((44886 : ℚ) ≠ 4000 * 12) ∧
    mapr_from_categories exVaCatsC8 "Veteran only (A&A)" "Veteran only (A&A)" = 12000 := by
  refine ⟨?_, rfl, by norm_num, ?_⟩ <;>
  · simp +decide only [mapr_from_categories, strContains, strContainsAux, exVaCatsC8,
      Option.getD]
    norm_num

/-- C9 amended.  calculator_engine.compute floors the gap at zero
(line 106), so its reported monthly_gap is never negative;
streamlit_app.compute_results stores money(cost - income) with no floor
(line 308), which the counterexample shows can be negative. -/
theorem C9_gap_floor :
    (∀ (i : AnswerMap) (sp : EngineSpec) (r : EngineResult),
      engineCompute i sp = some r → 0 ≤ r.monthly_gap) ∧
    (∀ (i : AnswerMap) (s : Session) (sp : Spec) (r : ResultRecord),
      computeResults i s sp = some r →
        r.monthly_gap = money (r.monthly_cost - r.household_income)) := by
  constructor
  · intro i sp r h
    obtain ⟨v, hv, rfl⟩ := Option.map_eq_some'.mp h
    exact money_nonneg (le_max_left _ _)
  · intro i s sp r h
    obtain ⟨v, hv, rfl⟩ := Option.map_eq_some'.mp h
    rfl

/-- Witness for C9 on the empty answer map for both engines. -/
theorem C9_witness :
    (0 : ℚ) ≤ exER.monthly_gap ∧
    exRR.monthly_gap = money (exRR.monthly_cost - exRR.household_income) := by
  refine ⟨C9_gap_floor.1 emptyAnswers exEngineSpec exER ?_,
    C9_gap_floor.2 emptyAnswers sessNone exSpec exRR ?_⟩
  · simp +decide only [engineCompute, engineComputeVals, engineComputePure, numSum,
      numGet, aget, engineOptionalFields, homeCarryFields, engineIncomeFields,
      pyTruthy, emptyAnswers, exEngineSpec, engine_per_person_cost,
      shared_unit_adjustment, isFacilityV, lookupStr, lookupStrD, pyStr, exER,
      Option.some_bind, Option.bind_eq_bind, Option.map_some', Option.getD]
    unfold engineComputePure
    simp +decide only [engine_per_person_cost, shared_unit_adjustment, isFacilityV,
      lookupStr, lookupStrD, pyStr, aget, pyTruthy, emptyAnswers, exEngineSpec,
      Option.getD]
    norm_num [money, roundHalfAway, roundHalfEven2, ratFloor_eq_floor, max_def, min_def]
  · simp +decide only [computeResults, computeResultsVals,
      per_person_cost, effective_hours, effective_days, startsInHome, aget, pyTruthy,
      pyOr, pyFloat, pyInt, strToFloat, strToInt, splitAtDot, natOfDigits, sumFloats,
      homeRawRead, manualRead,
      homeCarryFields, optionalFields, incomeFields, medicalFields, assetFields,
      exSpec, sessNone, emptyAnswers, exRR,
      Option.some_bind, Option.none_bind, Option.map_some', Option.map_none',
      Option.getD, Option.isSome]
    unfold computeResultsPure
    simp +decide only [assignVA, mapr_from_categories, strContains,
      strContainsAux, va_award_annual_of, shared_unit_discount, isFacilityV, stateMult,
      lookupStr, lookupStrD, ltcFlag, lowerStr, lowerChar, aget, pyTruthy,
      exSpec, emptyAnswers, Option.getD, Option.isSome]
    norm_num [money, roundHalfAway, ratFloor_eq_floor, pyTruncToInt, max_def, min_def,
      exRR]

/-- C10.  The hour and day counts entering the in-home cost are the
clamped values of per_person_cost lines 146-147: every successfully
parsed hours value lands in 0..24 and every days value in 0..31, while
absent or falsy (zero) inputs fall back to the defaults of 4 hours and
20 days. -/
theorem C10_clamp (i : AnswerMap) (tag : String) :
    (∀ h : ℤ, effective_hours i tag = some h → 0 ≤ h ∧ h ≤ 24) ∧
    (∀ d : ℤ, effective_days i tag = some d → 0 ≤ d ∧ d ≤ 31) ∧
    (i ("hours_per_day_person_" ++ tag) = Option.none → effective_hours i tag = some 4) ∧
    (i ("hours_per_day_person_" ++ tag) = some (Value.num 0) → effective_hours i tag = some 4) ∧
    (i ("days_per_month_person_" ++ tag) = Option.none → effective_days i tag = some 20) ∧
    (i ("days_per_month_person_" ++ tag) = some (Value.num 0) → effective_days i tag = some 20) := by
  refine ⟨?_, ?_, ?_, ?_, ?_, ?_⟩
  · intro h hh
    obtain ⟨n, _, rfl⟩ := Option.map_eq_some'.mp hh
    exact ⟨le_max_left 0 _, max_le (by norm_num) (min_le_left _ _)⟩
  · intro d hd
    obtain ⟨n, _, rfl⟩ := Option.map_eq_some'.mp hd
    exact ⟨le_max_left 0 _, max_le (by norm_num) (min_le_left _ _)⟩
  · intro hnone
    simp [effective_hours, aget, hnone, pyOr, pyTruthy, pyInt, pyTruncToInt,
      ratFloor_eq_floor]
  · intro hzero
    simp [effective_hours, aget, hzero, pyOr, pyTruthy, pyInt, pyTruncToInt,
      ratFloor_eq_floor]
  · intro hnone
    simp [effective_days, aget, hnone, pyOr, pyTruthy, pyInt, pyTruncToInt,
      ratFloor_eq_floor]
  · intro hzero
    simp [effective_days, aget, hzero, pyOr, pyTruthy, pyInt, pyTruncToInt,
      ratFloor_eq_floor]

/-- Witness for C10: an entered 30 hours is clamped to 24 and lies in
bounds; absent days fall back to 20. -/
theorem C10_witness :
    (0 ≤ (24 : ℤ) ∧ (24 : ℤ) ≤ 24) ∧ effective_days exInputsC10 "a" = some 20 :=
  ⟨(C10_clamp exInputsC10 "a").1 24 (by
      simp +decide [effective_hours, aget, exInputsC10, pyOr, pyTruthy, pyInt,
        pyTruncToInt, ratFloor_eq_floor]),
   (C10_clamp exInputsC10 "a").2.2.2.2.1 (by decide)⟩

theorem exCurveKeys_nonempty : exCurveKeys.Nonempty := ⟨0, by decide⟩

theorem interp_mem (m : Finset ℤ) (v : ℤ → ℚ) {h : ℤ} (hh : h ∈ m) :
    interp_in_home_daily m v h = v h := by
  unfold interp_in_home_daily
  rw [dif_pos ⟨h, hh⟩, if_pos hh]

theorem loOf_mem (m : Finset ℤ) (h : ℤ) (hne : m.Nonempty) : loOf m h hne ∈ m := by
  unfold loOf
  split
  · next hlo => exact Finset.mem_of_mem_filter _ (Finset.max'_mem _ hlo)
  · exact Finset.min'_mem _ hne

theorem hiOf_mem (m : Finset ℤ) (h : ℤ) (hne : m.Nonempty) : hiOf m h hne ∈ m := by
  unfold hiOf
  split
  · next hhi => exact Finset.mem_of_mem_filter _ (Finset.min'_mem _ hhi)
  · exact Finset.max'_mem _ hne

theorem le_loOf (m : Finset ℤ) (h : ℤ) (hne : m.Nonempty) {k : ℤ} (hk : k ∈ m)
    (hkh : k ≤ h) : k ≤ loOf m h hne := by
  have hkf : k ∈ m.filter (fun j => j ≤ h) := Finset.mem_filter.mpr ⟨hk, hkh⟩
  have hex : (m.filter (fun j => j ≤ h)).Nonempty := ⟨k, hkf⟩
  unfold loOf
  rw [dif_pos hex]
  exact Finset.le_max' _ _ hkf

theorem loOf_le (m : Finset ℤ) (h : ℤ) (hne : m.Nonempty)
    (hex : (m.filter (fun k => k ≤ h)).Nonempty) : loOf m h hne ≤ h := by
  unfold loOf
  rw [dif_pos hex]
  exact (Finset.mem_filter.mp (Finset.max'_mem _ hex)).2

theorem hiOf_le (m : Finset ℤ) (h : ℤ) (hne : m.Nonempty) {k : ℤ} (hk : k ∈ m)
    (hkh : h ≤ k) : hiOf m h hne ≤ k := by
  have hkf : k ∈ m.filter (fun j => h ≤ j) := Finset.mem_filter.mpr ⟨hk, hkh⟩
  have hex : (m.filter (fun j => h ≤ j)).Nonempty := ⟨k, hkf⟩
  unfold hiOf
  rw [dif_pos hex]
  exact Finset.min'_le _ _ hkf

theorem le_hiOf (m : Finset ℤ) (h : ℤ) (hne : m.Nonempty)
    (hex : (m.filter (fun k => h ≤ k)).Nonempty) : h ≤ hiOf m h hne := by
  unfold hiOf
  rw [dif_pos hex]
  exact (Finset.mem_filter.mp (Finset.min'_mem _ hex)).2

theorem loOf_empty_case (m : Finset ℤ) (h : ℤ) (hne : m.Nonempty)
    (hno : ¬ (m.filter (fun k => k ≤ h)).Nonempty) :
    loOf m h hne = m.min' hne ∧ hiOf m h hne = m.min' hne := by
  have hall : ∀ k ∈ m, h ≤ k := by
    intro k hk
    by_contra hlt
    exact hno ⟨k, Finset.mem_filter.mpr ⟨hk, le_of_lt (not_le.mp hlt)⟩⟩
  constructor
  · unfold loOf
    rw [dif_neg hno]
  · apply le_antisymm
    · exact hiOf_le m h hne (Finset.min'_mem _ hne) (hall _ (Finset.min'_mem _ hne))
    · exact Finset.min'_le _ _ (hiOf_mem m h hne)

theorem hiOf_empty_case (m : Finset ℤ) (h : ℤ) (hne : m.Nonempty)
    (hno : ¬ (m.filter (fun k => h ≤ k)).Nonempty) :
    loOf m h hne = m.max' hne ∧ hiOf m h hne = m.max' hne := by
  have hall : ∀ k ∈ m, k ≤ h := by
    intro k hk
    by_contra hlt
    exact hno ⟨k, Finset.mem_filter.mpr ⟨hk, le_of_lt (not_le.mp hlt)⟩⟩
  constructor
  · apply le_antisymm
    · exact Finset.le_max' _ _ (loOf_mem m h hne)
    · exact le_loOf m h hne (Finset.max'_mem _ hne) (hall _ (Finset.max'_mem _ hne))
  · unfold hiOf
    rw [dif_neg hno]

theorem interp_not_mem (m : Finset ℤ) (v : ℤ → ℚ) (h : ℤ) (hne : m.Nonempty)
    (hh : h ∉ m) :
    interp_in_home_daily m v h = interpBracket v h (loOf m h hne) (hiOf m h hne) := by
  unfold interp_in_home_daily
  rw [dif_pos hne, if_neg hh]

theorem interp_below (m : Finset ℤ) (v : ℤ → ℚ) (hne : m.Nonempty) {h : ℤ}
    (hle : h ≤ m.min' hne) : interp_in_home_daily m v h = v (m.min' hne) := by
  by_cases hh : h ∈ m
  · rw [interp_mem m v hh]
    congr 1
    exact le_antisymm hle (Finset.min'_le _ _ hh)
  · have hlt : h < m.min' hne :=
      lt_of_le_of_ne hle (fun e => hh (e ▸ Finset.min'_mem _ hne))
    have hno : ¬ (m.filter (fun k => k ≤ h)).Nonempty := by
      rintro ⟨k, hk⟩
      rw [Finset.mem_filter] at hk
      exact absurd (le_trans (Finset.min'_le _ _ hk.1) hk.2) (not_le.mpr hlt)
    obtain ⟨hlo, hhi⟩ := loOf_empty_case m h hne hno
    rw [interp_not_mem m v h hne hh, hlo, hhi, interpBracket, if_pos rfl]

theorem interp_above (m : Finset ℤ) (v : ℤ → ℚ) (hne : m.Nonempty) {h : ℤ}
    (hge : m.max' hne ≤ h) : interp_in_home_daily m v h = v (m.max' hne) := by
  by_cases hh : h ∈ m
  · rw [interp_mem m v hh]
    congr 1
    exact le_antisymm (Finset.le_max' _ _ hh) hge
  · have hlt : m.max' hne < h :=
      lt_of_le_of_ne hge (fun e => hh (e ▸ Finset.max'_mem _ hne))
    have hno : ¬ (m.filter (fun k => h ≤ k)).Nonempty := by
      rintro ⟨k, hk⟩
      rw [Finset.mem_filter] at hk
      exact absurd (le_trans hk.2 (Finset.le_max' _ _ hk.1)) (not_le.mpr hlt)
    obtain ⟨hlo, hhi⟩ := hiOf_empty_case m h hne hno
    rw [interp_not_mem m v h hne hh, hlo, hhi, interpBracket, if_pos rfl]

theorem interp_cell (m : Finset ℤ) (v : ℤ → ℚ) {lo hi h : ℤ} (hlo : lo ∈ m)
    (hhi : hi ∈ m) (h1 : lo < h) (h2 : h < hi) (hgap : ∀ k ∈ m, k ≤ lo ∨ hi ≤ k) :
    interp_in_home_daily m v h =
      v lo + (((h : ℚ) - (lo : ℚ)) / ((hi : ℚ) - (lo : ℚ))) * (v hi - v lo) := by
  have hne : m.Nonempty := ⟨lo, hlo⟩
  have hh : h ∉ m := by
    intro hmem
    rcases hgap h hmem with hc | hc
    · exact absurd hc (not_le.mpr h1)
    · exact absurd hc (not_le.mpr h2)
  have hloF : (m.filter (fun k => k ≤ h)).Nonempty :=
    ⟨lo, Finset.mem_filter.mpr ⟨hlo, le_of_lt h1⟩⟩
  have hhiF : (m.filter (fun k => h ≤ k)).Nonempty :=
    ⟨hi, Finset.mem_filter.mpr ⟨hhi, le_of_lt h2⟩⟩
  have hloeq : loOf m h hne = lo := by
    apply le_antisymm
    · rcases hgap _ (loOf_mem m h hne) with hc | hc
      · exact hc
      · exact absurd (le_trans hc (loOf_le m h hne hloF)) (not_le.mpr h2)
    · exact le_loOf m h hne hlo (le_of_lt h1)
  have hhieq : hiOf m h hne = hi := by
    apply le_antisymm
    · exact hiOf_le m h hne hhi (le_of_lt h2)
    · rcases hgap _ (hiOf_mem m h hne) with hc | hc
      · exact absurd (le_trans (le_hiOf m h hne hhiF) hc) (not_le.mpr h1)
      · exact hc
  rw [interp_not_mem m v h hne hh, hloeq, hhieq, interpBracket,
    if_neg (ne_of_lt (lt_trans h1 h2))]

/-- C4.  On any non-empty curve, interp_in_home_daily returns samples
exactly, clamps to the boundary samples outside the sampled range, and
linearly interpolates between adjacent samples. -/
theorem C4_interp_exact (m : Finset ℤ) (v : ℤ → ℚ) (hne : m.Nonempty) :
    (∀ h ∈ m, interp_in_home_daily m v h = v h) ∧
    (∀ h : ℤ, h ≤ m.min' hne → interp_in_home_daily m v h = v (m.min' hne)) ∧
    (∀ h : ℤ, m.max' hne ≤ h → interp_in_home_daily m v h = v (m.max' hne)) ∧
    (∀ lo hi h : ℤ, lo ∈ m → hi ∈ m → lo < h → h < hi →
      (∀ k ∈ m, k ≤ lo ∨ hi ≤ k) →
      interp_in_home_daily m v h =
        v lo + (((h : ℚ) - (lo : ℚ)) / ((hi : ℚ) - (lo : ℚ))) * (v hi - v lo)) :=
  ⟨fun _ hh => interp_mem m v hh,
   fun _ hle => interp_below m v hne hle,
   fun _ hge => interp_above m v hne hge,
   fun _ _ _ hlo hhi h1 h2 hgap => interp_cell m v hlo hhi h1 h2 hgap⟩

/-- Witness for C4 on the concrete three-sample curve: exact on a
sample, clamped below and above, interpolated inside the first cell. -/
theorem C4_witness :
    interp_in_home_daily exCurveKeys exCurveVal 8 = exCurveVal 8 ∧
    interp_in_home_daily exCurveKeys exCurveVal (-3) = exCurveVal 0 ∧
    interp_in_home_daily exCurveKeys exCurveVal 30 = exCurveVal 24 ∧
    interp_in_home_daily exCurveKeys exCurveVal 4 =
      exCurveVal 0 + ((((4 : ℤ) : ℚ) - ((0 : ℤ) : ℚ)) / (((8 : ℤ) : ℚ) - ((0 : ℤ) : ℚ))) *
        (exCurveVal 8 - exCurveVal 0) := by
  obtain ⟨e1, e2, e3, e4⟩ := C4_interp_exact exCurveKeys exCurveVal exCurveKeys_nonempty
  refine ⟨e1 8 (by decide), ?_, ?_,
    e4 0 8 4 (by decide) (by decide) (by decide) (by decide) (by decide)⟩
  · have h := e2 (-3) (by decide)
    rwa [show exCurveKeys.min' exCurveKeys_nonempty = 0 from by decide] at h
  · have h := e3 30 (by decide)
    rwa [show exCurveKeys.max' exCurveKeys_nonempty = 24 from by decide] at h

theorem interpBracket_le_right (v : ℤ → ℚ) {lo hi h : ℤ} (hvl : v lo ≤ v hi)
    (h1 : lo ≤ h) (h2 : h ≤ hi) : interpBracket v h lo hi ≤ v hi := by
  unfold interpBracket
  split
  · next heq => rw [heq]
  · next hne =>
    have hlt : lo < hi := lt_of_le_of_ne (le_trans h1 h2) hne
    have hd : (0 : ℚ) < (hi : ℚ) - (lo : ℚ) := by
      rw [sub_pos]
      exact_mod_cast hlt
    have ht1 : ((h : ℚ) - (lo : ℚ)) / ((hi : ℚ) - (lo : ℚ)) ≤ 1 := by
      rw [div_le_one hd]
      have : (h : ℚ) ≤ (hi : ℚ) := by exact_mod_cast h2
      linarith
    have hstep := mul_le_of_le_one_left (sub_nonneg.mpr hvl) ht1
    linarith

theorem interpBracket_ge_left (v : ℤ → ℚ) {lo hi h : ℤ} (hvl : v lo ≤ v hi)
    (h1 : lo ≤ h) (h2 : h ≤ hi) : v lo ≤ interpBracket v h lo hi := by
  unfold interpBracket
  split
  · next => exact le_refl _
  · next hne =>
    have hlt : lo < hi := lt_of_le_of_ne (le_trans h1 h2) hne
    have hd : (0 : ℚ) < (hi : ℚ) - (lo : ℚ) := by
      rw [sub_pos]
      exact_mod_cast hlt
    have ht0 : 0 ≤ ((h : ℚ) - (lo : ℚ)) / ((hi : ℚ) - (lo : ℚ)) := by
      apply div_nonneg _ (le_of_lt hd)
      have : (lo : ℚ) ≤ (h : ℚ) := by exact_mod_cast h1
      linarith
    have hstep := mul_nonneg ht0 (sub_nonneg.mpr hvl)
    linarith

theorem interp_le_sample (m : Finset ℤ) (v : ℤ → ℚ)
    (hv : ∀ a ∈ m, ∀ b ∈ m, a ≤ b → v a ≤ v b) {h k : ℤ} (hk : k ∈ m) (hhk : h ≤ k) :
    interp_in_home_daily m v h ≤ v k := by
  have hne : m.Nonempty := ⟨k, hk⟩
  by_cases hh : h ∈ m
  · rw [interp_mem m v hh]
    exact hv h hh k hk hhk
  · rw [interp_not_mem m v h hne hh]
    by_cases hloF : (m.filter (fun j => j ≤ h)).Nonempty
    · have hhiF : (m.filter (fun j => h ≤ j)).Nonempty :=
        ⟨k, Finset.mem_filter.mpr ⟨hk, hhk⟩⟩
      have hlole := loOf_le m h hne hloF
      have hhige := le_hiOf m h hne hhiF
      have hbr := interpBracket_le_right v
        (hv _ (loOf_mem m h hne) _ (hiOf_mem m h hne) (le_trans hlole hhige)) hlole hhige
      exact le_trans hbr (hv _ (hiOf_mem m h hne) _ hk (hiOf_le m h hne hk hhk))
  
    · obtain ⟨hlo, hhi⟩ := loOf_empty_case m h hne hloF
      rw [hlo, hhi, interpBracket, if_pos rfl]
      exact hv _ (Finset.min'_mem _ hne) _ hk (Finset.min'_le _ _ hk)

theorem sample_le_interp (m : Finset ℤ) (v : ℤ → ℚ)
    (hv : ∀ a ∈ m, ∀ b ∈ m, a ≤ b → v a ≤ v b) {h k : ℤ} (hk : k ∈ m) (hkh : k ≤ h) :
    v k ≤ interp_in_home_daily m v h := by
  have hne : m.Nonempty := ⟨k, hk⟩
  by_cases hh : h ∈ m
  · rw [interp_mem m v hh]
    exact hv k hk h hh hkh
  · rw [interp_not_mem m v h hne hh]
    by_cases hhiF : (m.filter (fun j => h ≤ j)).Nonempty
    · have hloF : (m.filter (fun j => j ≤ h)).Nonempty :=
        ⟨k, Finset.mem_filter.mpr ⟨hk, hkh⟩⟩
      have hlole := loOf_le m h hne hloF
      have hhige := le_hiOf m h hne hhiF
      have hbr := interpBracket_ge_left v
        (hv _ (loOf_mem m h hne) _ (hiOf_mem m h hne) (le_trans hlole hhige)) hlole hhige
      exact le_trans (hv _ hk _ (loOf_mem m h hne) (le_loOf m h hne hk hkh)) hbr
    · obtain ⟨hlo, hhi⟩ := hiOf_empty_case m h hne hhiF
      rw [hlo, hhi, interpBracket, if_pos rfl]
      exact hv _ hk _ (Finset.max'_mem _ hne) (Finset.le_max' _ _ hk)

theorem interp_cell_mono (m : Finset ℤ) (v : ℤ → ℚ)
    (hv : ∀ a ∈ m, ∀ b ∈ m, a ≤ b → v a ≤ v b) {h1 h2 : ℤ} (h12 : h1 ≤ h2)
    (hne : m.Nonempty) (hno : ∀ k ∈ m, k < h1 ∨ h2 < k) :
    interp_in_home_daily m v h1 ≤ interp_in_home_daily m v h2 := by
  have hh1 : h1 ∉ m := by
    intro hm
    rcases hno _ hm with hc | hc
    · exact absurd hc (lt_irrefl _)
    · exact absurd (lt_of_le_of_lt h12 hc) (lt_irrefl _)
  have hh2 : h2 ∉ m := by
    intro hm
    rcases hno _ hm with hc | hc
    · exact absurd (lt_of_lt_of_le hc h12) (lt_irrefl _)
    · exact absurd hc (lt_irrefl _)
  have hfL : m.filter (fun j => j ≤ h1) = m.filter (fun j => j ≤ h2) := by
    ext k
    simp only [Finset.mem_filter]
    constructor
    · rintro ⟨hk, hle⟩
      exact ⟨hk, le_trans hle h12⟩
    · rintro ⟨hk, hle⟩
      refine ⟨hk, ?_⟩
      rcases hno k hk with hc | hc
      · exact le_of_lt hc
      · exact absurd (lt_of_le_of_lt hle hc) (lt_irrefl _)
  have hfU : m.filter (fun j => h1 ≤ j) = m.filter (fun j => h2 ≤ j) := by
    ext k
    simp only [Finset.mem_filter]
    constructor
    · rintro ⟨hk, hle⟩
      refine ⟨hk, ?_⟩
      rcases hno k hk with hc | hc
      · exact absurd (lt_of_le_of_lt hle hc) (lt_irrefl _)
      · exact le_of_lt hc
    · rintro ⟨hk, hle⟩
      exact ⟨hk, le_trans h12 hle⟩
  have hloeq : loOf m h1 hne = loOf m h2 hne := by
    unfold loOf
    rw [hfL]
  have hhieq : hiOf m h1 hne = hiOf m h2 hne := by
    unfold hiOf
    rw [hfU]
  rw [interp_not_mem m v h1 hne hh1, interp_not_mem m v h2 hne hh2, hloeq, hhieq]
  by_cases heq : loOf m h2 hne = hiOf m h2 hne
  · rw [interpBracket, if_pos heq, interpBracket, if_pos heq]
  · by_cases hloF : (m.filter (fun j => j ≤ h1)).Nonempty
    · by_cases hhiF : (m.filter (fun j => h2 ≤ j)).Nonempty
      · have hlole : loOf m h2 hne ≤ h1 := by
          rw [← hloeq]
          exact loOf_le m h1 hne hloF
        have hhige : h2 ≤ hiOf m h2 hne := le_hiOf m h2 hne hhiF
        have hlt : loOf m h2 hne < hiOf m h2 hne :=
          lt_of_le_of_ne (le_trans hlole (le_trans h12 hhige)) heq
        have hdelta : 0 ≤ v (hiOf m h2 hne) - v (loOf m h2 hne) :=
          sub_nonneg.mpr (hv _ (loOf_mem m h2 hne) _ (hiOf_mem m h2 hne) (le_of_lt hlt))
        rw [interpBracket, if_neg heq, interpBracket, if_neg heq]
        have hd : (0 : ℚ) < ((hiOf m h2 hne : ℚ) - (loOf m h2 hne : ℚ)) := by
          rw [sub_pos]
          exact_mod_cast hlt
        have hfrac : ((h1 : ℚ) - (loOf m h2 hne : ℚ)) / ((hiOf m h2 hne : ℚ) - (loOf m h2 hne : ℚ)) ≤
            ((h2 : ℚ) - (loOf m h2 hne : ℚ)) / ((hiOf m h2 hne : ℚ) - (loOf m h2 hne : ℚ)) := by
          have hnum : ((h1 : ℚ) - (loOf m h2 hne : ℚ)) ≤ ((h2 : ℚ) - (loOf m h2 hne : ℚ)) := by
            have : (h1 : ℚ) ≤ (h2 : ℚ) := by exact_mod_cast h12
            linarith
          exact (div_le_div_iff_of_pos_right hd).mpr hnum
        have hstep := mul_le_mul_of_nonneg_right hfrac hdelta
        linarith
      · obtain ⟨he1, he2⟩ := hiOf_empty_case m h2 hne hhiF
        exact absurd (he1.trans he2.symm) heq
    · obtain ⟨he1, he2⟩ := loOf_empty_case m h1 hne hloF
      rw [← hloeq, ← hhieq] at heq
      exact absurd (he1.trans he2.symm) heq

/-- C5.  When the configured daily rates are non-decreasing on the
curve's samples, the interpolated daily rate is non-decreasing in the
hour count. -/
theorem C5_interp_mono (m : Finset ℤ) (v : ℤ → ℚ)
    (hv : ∀ a ∈ m, ∀ b ∈ m, a ≤ b → v a ≤ v b) :
    ∀ h1 h2 : ℤ, h1 ≤ h2 →
      interp_in_home_daily m v h1 ≤ interp_in_home_daily m v h2 := by
  intro h1 h2 h12
  by_cases hne : m.Nonempty
  · by_cases hex : ∃ k ∈ m, h1 ≤ k ∧ k ≤ h2
    · obtain ⟨k, hk, hk1, hk2⟩ := hex
      exact le_trans (interp_le_sample m v hv hk hk1) (sample_le_interp m v hv hk hk2)
    · push_neg at hex
      refine interp_cell_mono m v hv h12 hne (fun k hk => ?_)
      by_cases hc : h1 ≤ k
      · exact Or.inr (hex k hk hc)
      · exact Or.inl (not_le.mp hc)
  · unfold interp_in_home_daily
    rw [dif_neg hne, dif_neg hne]

/-- Witness for C5 on the concrete non-decreasing curve. -/
theorem C5_witness :
    interp_in_home_daily exCurveKeys exCurveVal 3 ≤
      interp_in_home_daily exCurveKeys exCurveVal 10 :=
  C5_interp_mono exCurveKeys exCurveVal (by decide) 3 10 (by decide)
